import Mathlib

/-!
Shallow embedding of the tasmota-adapter property-synchronization code
(src/src/power-plug.ts and the lights module) and proofs about it.

JSON response bodies are modelled as flat objects whose fields are scalar
JSON values; a rejected/thrown transport call is `Except.error ()`.
-/

namespace Tasmota

/-- A scalar JSON value as it appears in a Tasmota status response field. -/
inductive JVal where
  | str : String → JVal
  | num : Int → JVal
  | bool : Bool → JVal
  | null : JVal
deriving DecidableEq

/-- A parsed JSON object: an association list of fields. -/
abbrev JObj := List (String × JVal)

/-- Field access `json[k]` / `json.k`: `none` models an absent key (JS
`undefined`). -/
def jget (json : JObj) (k : String) : Option JVal :=
  match json.find? (fun p => p.1 == k) with
  | some p => some p.2
  | none => none

/-- A whole parsed response document, for code that tests the truthiness of
the parsed result itself (`if (result)`): JSON `null` parses to a falsy
value, an object is truthy. -/
inductive JDoc where
  | null : JDoc
  | obj : JObj → JDoc
deriving DecidableEq

/-- JavaScript truthiness of a parsed document. -/
def JDoc.truthy : JDoc → Bool
  | JDoc.null => false
  | JDoc.obj _ => true

/-- Optional chaining `result?.k`. -/
def JDoc.getOpt : JDoc → String → Option JVal
  | JDoc.null, _ => none
  | JDoc.obj o, k => jget o k

/-- The status transport for probing: maps a command string to the parsed
JSON of `getStatus(...).json()`, or `Except.error ()` when the request is
rejected / throws. -/
def ProbeTransport := String → Except Unit JObj

/-- The availability test of power-plug.ts line 82: the response field named
after the command is strictly equal to the string ON or the string OFF. -/
def availableIn (json : JObj) (command : String) : Bool :=
  jget json command == some (JVal.str "ON") || jget json command == some (JVal.str "OFF")

/-- power-plug.ts OnOffProperty.isAvailable (lines 77-91): query
`POWER{channel}`, read the field of the same name, and test it against the
strings ON and OFF. No try/catch: a transport error propagates. -/
def isAvailable (t : ProbeTransport) (channel : Nat) : Except Unit Bool :=
  let command := "POWER" ++ toString channel
  match t command with
  | Except.error e => Except.error e
  | Except.ok json => Except.ok (availableIn json command)

/-- The probe loop of getAvailableChannels over an explicit index list:
for each index in order, await isAvailable and push the index when
available. An error anywhere rejects the whole loop (no try/catch). -/
def getAvailableChannelsAux (t : ProbeTransport) : List Nat → Except Unit (List Nat)
  | [] => Except.ok []
  | i :: rest =>
    match isAvailable t i with
    | Except.error e => Except.error e
    | Except.ok avail =>
      match getAvailableChannelsAux t rest with
      | Except.error e => Except.error e
      | Except.ok tail => Except.ok (if avail then i :: tail else tail)

/-- power-plug.ts OnOffProperty.getAvailableChannels (lines 65-75): probe
channel indices 1 through 9 inclusive (`for (let i = 1; i < 10; i++)`). -/
def getAvailableChannels (t : ProbeTransport) : Except Unit (List Nat) :=
  getAvailableChannelsAux t (List.range' 1 9)

/-- The stub transport of the spec's channel-probing test: POWER1..POWER5
report ON or OFF, POWER6..POWER9 have no such key in the response. -/
def specStub : ProbeTransport := fun c =>
  if c = "POWER1" then Except.ok [("POWER1", JVal.str "ON")]
  else if c = "POWER2" then Except.ok [("POWER2", JVal.str "OFF")]
  else if c = "POWER3" then Except.ok [("POWER3", JVal.str "ON")]
  else if c = "POWER4" then Except.ok [("POWER4", JVal.str "OFF")]
  else if c = "POWER5" then Except.ok [("POWER5", JVal.str "ON")]
  else Except.ok []

/-- A stub with a gap: only channels 2 and 5 report ON/OFF. -/
def gapStub : ProbeTransport := fun c =>
  if c = "POWER2" then Except.ok [("POWER2", JVal.str "OFF")]
  else if c = "POWER5" then Except.ok [("POWER5", JVal.str "ON")]
  else Except.ok []

/-- A stub whose POWER3 probe throws; every other channel reports ON. -/
def failingStub : ProbeTransport := fun c =>
  if c = "POWER3" then Except.error ()
  else Except.ok [(c, JVal.str "ON")]

/-- The cached state of one gateway property. Models the gateway-addon
Property base class (an external collaborator): setCachedValueAndNotify
stores a value and emits a change notification, and Property.setValue
performs the local optimistic cache update before any remote command runs
(spec section 4.2). `notified` records the emitted notifications in order. -/
structure PropState (T : Type) where
  cached : Option T
  notified : List T
deriving DecidableEq

/-- gateway-addon setCachedValueAndNotify: store the value and notify. -/
def setCachedValueAndNotify {T : Type} (s : PropState T) (v : T) : PropState T :=
  { cached := some v, notified := s.notified ++ [v] }

/-- The response of a setStatus command: HTTP status, status text, and the
parsed body fields WARNING and Command (none = absent/falsy). -/
structure SetResponse where
  status : Int
  statusText : String
  warning : Option String
  command : Option String
deriving DecidableEq

/-- The response handling shared by every set closure and by the plug's
setValue: non-200 logs the status text; 200 with a WARNING field logs the
warning and, when present, the Command field. Nothing else happens. -/
def logSetResult (r : SetResponse) : List String :=
  if r.status ≠ 200 then
    ["Could not set status: " ++ r.statusText ++ " (" ++ toString r.status ++ ")"]
  else
    match r.warning with
    | some w =>
      ("Could not set status: " ++ w) ::
        (match r.command with
         | some c => ["Could not set status: " ++ c]
         | none => [])
    | none => []

/-- A remote command as issued through setStatus: command key and payload. -/
structure Command where
  key : String
  payload : String
deriving DecidableEq

/-- The light OnOffProperty set closure command (lights module lines 52-54):
Power ON/OFF. -/
def onOffSetCommand (value : Bool) : Command :=
  ⟨"Power", if value then "ON" else "OFF"⟩

/-- The BrightnessProperty set closure command (lines 148-149): Dimmer. -/
def brightnessSetCommand (value : Int) : Command :=
  ⟨"Dimmer", toString value⟩

/-- The ColorTemperatureProperty set closure command (lines 185-186):
CT with the kelvin value converted by kelvinToTasmota. The conversion
(src/ct-conversion.ts, an external pure function per spec sections 1 and 6)
is a parameter. -/
def ctSetCommand (kelvinToTasmota : Int → Int) (value : Int) : Command :=
  ⟨"CT", toString (kelvinToTasmota value)⟩

/-- JavaScript s.substring(a, b): the characters at indices a..b-1. -/
def jsSubstring (s : String) (a b : Nat) : String :=
  String.mk ((s.toList.drop a).take (b - a))

/-- JavaScript s.repeat(n). -/
def jsRepeat (s : String) (n : Nat) : String :=
  String.join (List.replicate n s)

/-- The white-LED rewrite of the ColorProperty set closure (lines 89-101):
when useWhiteLedInColorMode is enabled, a value equal to
hash + first-byte-pair repeated three times (a grey) is rewritten, for
devices with more than 3 channels, to RGB 000000 plus that byte pair on the
white channel; otherwise the value passes through unchanged. -/
def colorRewrite (useWhite : Bool) (channels : ℚ) (value : String) : String :=
  if useWhite then
    let grey := "#" ++ jsRepeat (jsSubstring value 1 3) 3
    if channels > 3 ∧ value = grey then "#000000" ++ jsSubstring value 1 3
    else value
  else value

/-- WritableProperty.setValue (lights module lines 33-41) composed with a
set closure that only issues a remote command and logs: the wrapper first
caches the value locally via super.setValue (optimistic write), then the
closure sends `setCmd value` and handles the response `r` by logging only.
The cache is never touched again, whatever the response. -/
def writableSetValue {T : Type} (setCmd : T → Command) (s : PropState T) (v : T)
    (r : SetResponse) : PropState T × Command × List String :=
  (setCachedValueAndNotify s v, setCmd v, logSetResult r)

/-- A light set closure run to completion (lights module lines 52-71 and the
analogous brightness/CT/color closures): issue the remote command built from
the value and handle the response by logging; the closure has no internal
catch, so a rejected setStatus (`remote _ = error`) rejects the closure's
whole computation. -/
def setClosureRun {T : Type} (mkCmd : T → Command)
    (remote : Command → Except Unit SetResponse) (v : T) :
    Except Unit (Command × List String) :=
  let cmd := mkCmd v
  match remote cmd with
  | Except.error e => Except.error e
  | Except.ok r => Except.ok (cmd, logSetResult r)

/-- WritableProperty.setValue (lights module lines 33-41) with the set
closure kept fallible: the wrapper awaits super.setValue (the optimistic
cache write) inside try/catch, but invokes `this.set(value)` WITHOUT await
(line 37), so the closure's computation is detached: its rejection is
neither caught nor logged by the wrapper and escapes as an unhandled
promise rejection. The second component is that detached computation. -/
def lightSetValue {T : Type} (mkCmd : T → Command)
    (remote : Command → Except Unit SetResponse) (s : PropState T) (v : T) :
    PropState T × Except Unit (Command × List String) :=
  (setCachedValueAndNotify s v, setClosureRun mkCmd remote v)

/-- The state of the ColorProperty: the lazily inferred channel width
(0 = unknown; a JavaScript division, hence rational) plus the property
cache. The constructor (line 136) starts the width at 0. -/
structure ColorState where
  channels : ℚ
  prop : PropState String
deriving DecidableEq

/-- A fresh ColorProperty: channels 0, empty cache. -/
def colorInit : ColorState := ⟨0, ⟨none, []⟩⟩

/-- ColorProperty.setValue: the WritableProperty wrapper caches the value,
then the set closure (lines 89-119) sends the possibly rewritten color.
The closure reads this.channels but never assigns it. -/
def colorSetValue (useWhite : Bool) (s : ColorState) (v : String) (r : SetResponse) :
    ColorState × Command × List String :=
  (⟨s.channels, setCachedValueAndNotify s.prop v⟩,
   ⟨"Color", colorRewrite useWhite s.channels v⟩,
   logSetResult r)

/-- The color string a poll reads: `result?.Color || ""` (a falsy or absent
field gives the empty string; truthy non-string fields are outside the
modelled domain). -/
def jsColorField (result : JDoc) : String :=
  match result.getOpt "Color" with
  | some (JVal.str c) => c
  | _ => ""

/-- The ColorProperty poll closure (lights module lines 121-135) after a
successful read: read the color string, infer the channel width as length/2
when it is still 0, then display the white channel as grey when RGB is
000000 and the string has 8 characters, and update with the lower-cased
hash-prefixed RGB portion. -/
def colorPoll (s : ColorState) (result : JDoc) : ColorState :=
  let color : String := jsColorField result
  let chs := if s.channels = 0 then ((color.length : ℚ) / 2) else s.channels
  let rgb := jsSubstring color 0 6
  let rgb2 :=
    if rgb = "000000" ∧ color.length = 8 then jsRepeat (jsSubstring color 6 8) 3
    else rgb
  ⟨chs, setCachedValueAndNotify s.prop ("#" ++ rgb2.toLower)⟩

/-- power-plug.ts OnOffProperty.setValue (lines 26-51): cache via
super.setValue, then await setStatus for Power{channel}; the whole body sits
in a try/catch, so a thrown transport call (`remote = error`) is caught and
logged and the function still returns normally with the cached value kept. -/
def plugSetValue (channel : String) (s : PropState Bool) (v : Bool)
    (remote : Except Unit SetResponse) : PropState Bool × Command × List String :=
  let s1 := setCachedValueAndNotify s v
  let cmd : Command := ⟨"Power" ++ channel, if v then "ON" else "OFF"⟩
  match remote with
  | Except.ok r => (s1, cmd, logSetResult r)
  | Except.error _ => (s1, cmd, ["Could not set value"])

/-- The on/off poll read (power-plug.ts line 56 and lights module line 75):
the local boolean is the strict equality of the POWER field with the
string ON. -/
def readPower (result : JObj) : Bool :=
  jget result "POWER" == some (JVal.str "ON")

/-- The light OnOffProperty poll closure body (lights module lines 72-76)
after a successful read: update (cache and notify) with POWER == ON,
unconditionally. -/
def lightOnOffPollStep (s : PropState Bool) (result : JObj) : PropState Bool :=
  setCachedValueAndNotify s (readPower result)

/-- The light OnOffProperty poll closure with its transport outcome: there
is no try/catch, so a rejected getStatus or json() propagates out of the
poll to the scheduler. -/
def onOffLightPoll (s : PropState Bool) (response : Except Unit JObj) :
    Except Unit (PropState Bool) :=
  match response with
  | Except.error e => Except.error e
  | Except.ok result => Except.ok (lightOnOffPollStep s result)

/-- The plug OnOffProperty state: the change-detection field lastState
(undefined at construction) plus the property cache. -/
structure PlugOnOff where
  lastState : Option Bool
  prop : PropState Bool
deriving DecidableEq

/-- A fresh plug OnOffProperty: lastState undefined, empty cache. -/
def plugInit : PlugOnOff := ⟨none, ⟨none, []⟩⟩

/-- power-plug.ts OnOffProperty.updateValue (lines 53-63) after a successful
read: compute POWER == ON and, only when it differs from lastState, store it
and notify. -/
def plugUpdateStep (s : PlugOnOff) (result : JObj) : PlugOnOff :=
  let value := readPower result
  if s.lastState ≠ some value then
    ⟨some value, setCachedValueAndNotify s.prop value⟩
  else s

/-- updateValue with its transport outcome: no try/catch, a rejected
getStatus or json() propagates out of the poll. -/
def plugUpdateValue (s : PlugOnOff) (response : Except Unit JObj) :
    Except Unit PlugOnOff :=
  match response with
  | Except.error e => Except.error e
  | Except.ok result => Except.ok (plugUpdateStep s result)

/-- A JavaScript number that may be NaN. -/
inductive JsNum where
  | nan : JsNum
  | int : Int → JsNum
deriving DecidableEq

/-- Modelled from the spec: tasmotaToKelvin lives in src/ct-conversion.ts,
which is not among the given source files; spec sections 1 and 6 treat it as
a pure numeric conversion supplied as input, here the parameter `t2k` on
defined native values. JavaScript numeric arithmetic on undefined yields
NaN, so an absent input maps to NaN. (Non-numeric defined fields are outside
the modelled domain.) -/
def tasmotaToKelvin (t2k : Int → Int) : Option JVal → JsNum
  | some (JVal.num n) => JsNum.int (t2k n)
  | _ => JsNum.nan

/-- The ColorTemperatureProperty poll closure (lights module lines 204-210):
guard the truthiness of the parsed document itself, then update with
tasmotaToKelvin(result?.CT). The guard does not look at the CT field. -/
def ctPoll (t2k : Int → Int) (s : PropState JsNum) (result : JDoc) : PropState JsNum :=
  if result.truthy then
    setCachedValueAndNotify s (tasmotaToKelvin t2k (result.getOpt "CT"))
  else s

/-- The property names each device variant constructs (lights module:
DimmableLight 224-229, ColorTemperatureLight 251-252, ColorLight 275-276,
ColorCtLight 327-331). -/
def dimmableLightProps : List String := ["on", "brightness"]

/-- ColorTemperatureLight adds colorTemperature to the dimmable set. -/
def colorTemperatureLightProps : List String := dimmableLightProps ++ ["colorTemperature"]

/-- ColorLight adds color to the dimmable set. -/
def colorLightProps : List String := dimmableLightProps ++ ["color"]

/-- ColorCtLight adds colorTemperature and colorMode to the color set. -/
def colorCtLightProps : List String := colorLightProps ++ ["colorTemperature", "colorMode"]

/-- The properties whose startPolling runs when DimmableLight.startPolling
(lines 236-239) is invoked, in call order. -/
def dimmableLightStartPolling : List String := ["on", "brightness"]

/-- ColorTemperatureLight.startPolling (lines 259-263): super, then
colorTemperature. -/
def colorTemperatureLightStartPolling : List String :=
  dimmableLightStartPolling ++ ["colorTemperature"]

/-- ColorLight.startPolling (lines 283-287): super, then color. -/
def colorLightStartPolling : List String :=
  dimmableLightStartPolling ++ ["color"]

/-- ColorCtLight.startPolling (lines 338-343): super (the ColorLight
chain), then colorTemperature and colorMode. -/
def colorCtLightStartPolling : List String :=
  colorLightStartPolling ++ ["colorTemperature", "colorMode"]

theorem getAvailableChannelsAux_total (f : String → JObj) (is : List Nat) :
    getAvailableChannelsAux (fun c => Except.ok (f c)) is =
      Except.ok (is.filter
        (fun i => availableIn (f ("POWER" ++ toString i)) ("POWER" ++ toString i))) := by
  induction is with
  | nil => rfl
  | cons i rest ih =>
    simp only [getAvailableChannelsAux, isAvailable, ih, List.filter_cons]

theorem getAvailableChannelsAux_error (t : ProbeTransport) (is : List Nat)
    (h : ∃ i ∈ is, t ("POWER" ++ toString i) = Except.error ()) :
    getAvailableChannelsAux t is = Except.error () := by
  induction is with
  | nil => rcases h with ⟨i, hi, _⟩; cases hi
  | cons i rest ih =>
    rcases h with ⟨j, hj, herr⟩
    rcases List.mem_cons.mp hj with hji | hjr
    · subst hji
      simp only [getAvailableChannelsAux, isAvailable, herr]
    · cases hav : isAvailable t i with
      | error e => cases e; simp only [getAvailableChannelsAux, hav]
      | ok avail =>
        simp only [getAvailableChannelsAux, hav, ih ⟨j, hjr, herr⟩]

/-- C1: probing queries POWER1..POWER9 in order and returns exactly the
indices whose response field POWER{i} is the string ON or OFF, ascending
with gaps preserved; the spec stub with POWER1..POWER5 present yields
[1,2,3,4,5]. -/
theorem probe_channels_spec :
    (∀ f : String → JObj,
      getAvailableChannels (fun c => Except.ok (f c)) =
        Except.ok ((List.range' 1 9).filter
          (fun i => availableIn (f ("POWER" ++ toString i)) ("POWER" ++ toString i)))) ∧
    getAvailableChannels specStub = Except.ok [1, 2, 3, 4, 5] ∧
    getAvailableChannels gapStub = Except.ok [2, 5] := by
  refine ⟨fun f => getAvailableChannelsAux_total f (List.range' 1 9), ?_, ?_⟩
  · rfl
  · rfl

/-- C7 counterexample: with a transport that throws while probing POWER3
(and reports every other channel ON), the probe does not continue and return
the remaining channel list [1,2,4,5,6,7,8,9]; the error propagates and the
whole probe fails. -/
theorem probe_error_counterexample :
    getAvailableChannels failingStub ≠ Except.ok [1, 2, 4, 5, 6, 7, 8, 9] ∧
    getAvailableChannels failingStub = Except.error () := by
  have heq : getAvailableChannels failingStub = Except.error () := rfl
  exact ⟨by rw [heq]; intro h; exact Except.noConfusion h, heq⟩

/-- C7 amended: a transport error while probing any index 1..9 aborts the
entire probe: getAvailableChannels rejects with that error and returns no
channel list (there is no per-index error handling in isAvailable or in the
probe loop). -/
theorem probe_error_aborts (t : ProbeTransport)
    (h : ∃ i ∈ List.range' 1 9, t ("POWER" ++ toString i) = Except.error ()) :
    getAvailableChannels t = Except.error () :=
  getAvailableChannelsAux_error t (List.range' 1 9) h

/-- Witness for probe_error_aborts at the concrete failing stub. -/
theorem probe_error_aborts_witness :
    getAvailableChannels failingStub = Except.error () :=
  probe_error_aborts failingStub ⟨3, by decide, rfl⟩

/-- C2: every writable property write caches the value first; a non-200
response to the remote command only logs, so after the call the cached
value is still the written one (no rollback), for the light on/off,
brightness, color-temperature and color properties and the plug on/off
property alike. -/
theorem write_non200_keeps_cache (r : SetResponse) (hr : r.status ≠ 200) :
    (∀ (s : PropState Bool) (v : Bool),
      ((writableSetValue onOffSetCommand s v r).1).cached = some v) ∧
    (∀ (s : PropState Int) (v : Int),
      ((writableSetValue brightnessSetCommand s v r).1).cached = some v) ∧
    (∀ (k2t : Int → Int) (s : PropState Int) (v : Int),
      ((writableSetValue (ctSetCommand k2t) s v r).1).cached = some v) ∧
    (∀ (useWhite : Bool) (s : ColorState) (v : String),
      ((colorSetValue useWhite s v r).1).prop.cached = some v) ∧
    (∀ (ch : String) (s : PropState Bool) (v : Bool),
      ((plugSetValue ch s v (Except.ok r)).1).cached = some v) := by
  refine ⟨fun s v => rfl, fun s v => rfl, fun k2t s v => rfl, fun useWhite s v => rfl,
    fun ch s v => rfl⟩

/-- Witness for write_non200_keeps_cache: a status-500 response after a
write of true leaves true cached. -/
theorem write_non200_keeps_cache_witness :
    ((writableSetValue onOffSetCommand ⟨none, []⟩ true
        ⟨500, "Internal Server Error", none, none⟩).1).cached = some true :=
  (write_non200_keeps_cache ⟨500, "Internal Server Error", none, none⟩
    (by decide)).1 ⟨none, []⟩ true

/-- C3: a color property starts with channel width 0; the first successful
color read sets it to length/2 (a read of 00FF00 gives 3); once nonzero,
neither a later poll (even one reading 8 hex characters) nor a write ever
changes it. -/
theorem color_width_frozen (s : ColorState) (r : JDoc) (h : s.channels ≠ 0) :
    (colorPoll s r).channels = s.channels ∧
    (∀ (useWhite : Bool) (v : String) (resp : SetResponse),
      ((colorSetValue useWhite s v resp).1).channels = s.channels) ∧
    colorInit.channels = 0 ∧
    (colorPoll colorInit (JDoc.obj [("Color", JVal.str "00FF00")])).channels = 3 ∧
    (colorPoll (colorPoll colorInit (JDoc.obj [("Color", JVal.str "00FF00")]))
        (JDoc.obj [("Color", JVal.str "0000008F")])).channels = 3 := by
  have hch : ∀ (s : ColorState) (result : JDoc),
      (colorPoll s result).channels =
        if s.channels = 0 then ((jsColorField result).length : ℚ) / 2
        else s.channels := fun s result => rfl
  have hfirst : (colorPoll colorInit (JDoc.obj [("Color", JVal.str "00FF00")])).channels = 3 := by
    rw [hch]
    have h0 : colorInit.channels = 0 := rfl
    rw [h0, if_pos rfl]
    have hlen : (jsColorField (JDoc.obj [("Color", JVal.str "00FF00")])).length = 6 := rfl
    rw [hlen]
    norm_num
  refine ⟨?_, fun useWhite v resp => rfl, rfl, hfirst, ?_⟩
  · rw [hch, if_neg h]
  · rw [hch, hfirst, if_neg (by norm_num)]

/-- Witness for color_width_frozen at width 3 and an empty poll response. -/
theorem color_width_frozen_witness :
    (colorPoll ⟨3, ⟨none, []⟩⟩ JDoc.null).channels = 3 :=
  (color_width_frozen ⟨3, ⟨none, []⟩⟩ JDoc.null (by decide)).1

/-- C4: with useWhiteLedInColorMode enabled and channel width above 3, a
written color whose three RGB byte pairs are all equal is rewritten to RGB
000000 with the white channel set to that pair (808080 becomes 00000080),
and a color whose pairs are not all equal passes through unchanged. -/
theorem white_led_rewrite (w : ℚ) (hw : w > 3) (r1 r2 g1 g2 b1 b2 : Char) :
    (g1 = r1 ∧ g2 = r2 ∧ b1 = r1 ∧ b2 = r2 →
      colorRewrite true w (String.mk ['#', r1, r2, g1, g2, b1, b2]) =
        "#000000" ++ String.mk [r1, r2]) ∧
    (¬(g1 = r1 ∧ g2 = r2 ∧ b1 = r1 ∧ b2 = r2) →
      colorRewrite true w (String.mk ['#', r1, r2, g1, g2, b1, b2]) =
        String.mk ['#', r1, r2, g1, g2, b1, b2]) ∧
    colorRewrite true w "#808080" = "#00000080" ∧
    colorRewrite true w "#800000" = "#800000" := by
  have hgrey : "#" ++ jsRepeat
      (jsSubstring (String.mk ['#', r1, r2, g1, g2, b1, b2]) 1 3) 3 =
      String.mk ['#', r1, r2, r1, r2, r1, r2] := rfl
  have hiff : String.mk ['#', r1, r2, g1, g2, b1, b2] =
      String.mk ['#', r1, r2, r1, r2, r1, r2] ↔
      (g1 = r1 ∧ g2 = r2 ∧ b1 = r1 ∧ b2 = r2) := by
    constructor
    · intro he
      injection he with hl
      simp only [List.cons.injEq] at hl
      exact ⟨hl.2.2.2.1, hl.2.2.2.2.1, hl.2.2.2.2.2.1, hl.2.2.2.2.2.2.1⟩
    · rintro ⟨h1, h2, h3, h4⟩
      rw [h1, h2, h3, h4]
  refine ⟨?_, ?_, ?_, ?_⟩
  · intro hpairs
    simp only [colorRewrite, if_true, hgrey]
    rw [if_pos ⟨hw, hiff.mpr hpairs⟩]
    rfl
  · intro hpairs
    simp only [colorRewrite, if_true, hgrey]
    rw [if_neg (fun hc => hpairs (hiff.mp hc.2))]
  · simp only [colorRewrite, if_true]
    rw [if_pos ⟨hw, rfl⟩]
    rfl
  · have hne : ¬(w > 3 ∧ ("#800000" : String) =
        "#" ++ jsRepeat (jsSubstring "#800000" 1 3) 3) := by
      intro hc
      have h8 : ("#800000" : String) = "#808080" := hc.2
      exact absurd h8 (by decide)
    simp only [colorRewrite, if_true]
    rw [if_neg hne]

/-- Witness for white_led_rewrite at width 4. -/
theorem white_led_rewrite_witness :
    colorRewrite true 4 "#808080" = "#00000080" ∧
    colorRewrite true 4 "#800000" = "#800000" :=
  ⟨(white_led_rewrite 4 (by norm_num) '8' '0' '8' '0' '8' '0').2.2.1,
   (white_led_rewrite 4 (by norm_num) '8' '0' '8' '0' '8' '0').2.2.2⟩

/-- C5: a plug on/off poll notifies exactly when the newly read boolean
differs from the stored lastState; from the initial (unknown) state, three
polls reading the same boolean notify exactly once, on the first. -/
theorem plug_notify_on_change :
    (∀ (s : PlugOnOff) (result : JObj),
      (plugUpdateStep s result).prop.notified =
        s.prop.notified ++
          (if s.lastState ≠ some (readPower result) then [readPower result] else [])) ∧
    (∀ result : JObj,
      (plugUpdateStep plugInit result).prop.notified = [readPower result] ∧
      (plugUpdateStep (plugUpdateStep plugInit result) result).prop.notified =
        [readPower result] ∧
      (plugUpdateStep (plugUpdateStep (plugUpdateStep plugInit result) result)
          result).prop.notified = [readPower result]) := by
  have hstep : ∀ (s : PlugOnOff) (result : JObj),
      (plugUpdateStep s result).prop.notified =
        s.prop.notified ++
          (if s.lastState ≠ some (readPower result) then [readPower result] else []) := by
    intro s result
    simp only [plugUpdateStep]
    split
    · simp [setCachedValueAndNotify]
    · simp
  refine ⟨hstep, fun result => ?_⟩
  have h1 : plugUpdateStep plugInit result =
      ⟨some (readPower result), ⟨some (readPower result), [readPower result]⟩⟩ := by
    simp [plugUpdateStep, plugInit, setCachedValueAndNotify]
  have h2 : plugUpdateStep
      ⟨some (readPower result), ⟨some (readPower result), [readPower result]⟩⟩ result =
      ⟨some (readPower result), ⟨some (readPower result), [readPower result]⟩⟩ := by
    simp [plugUpdateStep]
  rw [h1, h2, h2]
  exact ⟨rfl, rfl, rfl⟩

/-- C6: the color-temperature poll guards only the truthiness of the parsed
document, not the CT field. A parseable object without CT still triggers an
update: the cache becomes the NaN conversion of undefined and a
notification fires (the spec requires the previous value to be retained).
Only a falsy document (JSON null) skips the update. -/
theorem ct_missing_field_updates_cache (t2k : Int → Int) :
    (ctPoll t2k ⟨some (JsNum.int 4000), []⟩ (JDoc.obj [])).cached = some JsNum.nan ∧
    (ctPoll t2k ⟨some (JsNum.int 4000), []⟩ (JDoc.obj [])).notified = [JsNum.nan] ∧
    ctPoll t2k ⟨some (JsNum.int 4000), []⟩ JDoc.null = ⟨some (JsNum.int 4000), []⟩ :=
  ⟨rfl, rfl, rfl⟩

/-- C8 counterexample: a transport error during a poll is not swallowed: it
propagates out of the poll closure (light on/off poll and plug updateValue
alike) to the scheduler. -/
theorem poll_error_counterexample :
    onOffLightPoll ⟨some true, []⟩ (Except.error ()) = Except.error () ∧
    plugUpdateValue ⟨some true, ⟨some true, [true]⟩⟩ (Except.error ()) =
      Except.error () :=
  ⟨rfl, rfl⟩

/-- C8 amended: only the plug on/off write swallows a thrown remote command
(its setValue awaits everything inside try/catch, logs, and returns
normally with the written value cached). The light write paths invoke their
set closure without awaiting it: the optimistic cache write stands, but a
rejected remote command escapes the setValue try/catch uncaught and
unlogged. Poll paths have no handler at all: a transport or parse error
propagates out of the poll closure to the scheduler. -/
theorem error_handling_boundaries (ch : String) (s : PropState Bool) (v : Bool) :
    ((plugSetValue ch s v (Except.error ())).1).cached = some v ∧
    (plugSetValue ch s v (Except.error ())).2.2 = ["Could not set value"] ∧
    (∀ (T : Type) (mkCmd : T → Command) (st : PropState T) (w : T),
      ((lightSetValue mkCmd (fun _ => Except.error ()) st w).1).cached = some w ∧
      (lightSetValue mkCmd (fun _ => Except.error ()) st w).2 = Except.error ()) ∧
    (∀ sb : PropState Bool, onOffLightPoll sb (Except.error ()) = Except.error ()) ∧
    (∀ sp : PlugOnOff, plugUpdateValue sp (Except.error ()) = Except.error ()) :=
  ⟨rfl, rfl, fun _ _ _ _ => ⟨rfl, rfl⟩, fun _ => rfl, fun _ => rfl⟩

/-- C9: for each light variant, startPolling reaches exactly the variant's
own property set: each ancestor layer runs exactly once and no property is
skipped or duplicated. -/
theorem start_polling_complete :
    (dimmableLightStartPolling = dimmableLightProps ∧
      dimmableLightStartPolling.Nodup) ∧
    (colorTemperatureLightStartPolling = colorTemperatureLightProps ∧
      colorTemperatureLightStartPolling.Nodup) ∧
    (colorLightStartPolling = colorLightProps ∧ colorLightStartPolling.Nodup) ∧
    (colorCtLightStartPolling = colorCtLightProps ∧ colorCtLightStartPolling.Nodup) ∧
    (∀ p ∈ colorCtLightProps, colorCtLightStartPolling.count p = 1) := by
  decide

/-- C10: every on/off poll (light and plug) reads the boolean strictly as
POWER == ON, so any other POWER value, an absent field included, is read as
false and overwrites a cached true (notifying the transition on the plug). -/
theorem power_read_strict_on (result : JObj)
    (h : jget result "POWER" ≠ some (JVal.str "ON")) :
    readPower result = false ∧
    (lightOnOffPollStep ⟨some true, []⟩ result).cached = some false ∧
    (plugUpdateStep ⟨some true, ⟨some true, []⟩⟩ result).prop.cached = some false ∧
    (plugUpdateStep ⟨some true, ⟨some true, []⟩⟩ result).prop.notified = [false] := by
  have hrp : readPower result = false := by
    simp only [readPower, beq_eq_false_iff_ne, ne_eq]
    exact h
  refine ⟨hrp, ?_, ?_, ?_⟩
  · simp [lightOnOffPollStep, setCachedValueAndNotify, hrp]
  · simp [plugUpdateStep, hrp, setCachedValueAndNotify]
  · simp [plugUpdateStep, hrp, setCachedValueAndNotify]

/-- Witness for power_read_strict_on: a response with no POWER key reads as
false and overwrites a cached true. -/
theorem power_read_strict_on_witness :
    readPower [] = false ∧
    (lightOnOffPollStep ⟨some true, []⟩ []).cached = some false ∧
    (plugUpdateStep ⟨some true, ⟨some true, []⟩⟩ []).prop.cached = some false ∧
    (plugUpdateStep ⟨some true, ⟨some true, []⟩⟩ []).prop.notified = [false] :=
  power_read_strict_on [] (by decide)

end Tasmota
